import Mathlib

/-!
Shallow embedding of the subscription lifecycle of the pnpbots/Bot-hibrido
repository (files `hybrid_database.py`, `hybrid_handlers.py`, `hybrid_main.py`),
together with theorems settling the spec claims.

Modelling conventions:
* timestamps are integers (`Time := Int`); SQL `CURRENT_TIMESTAMP` and Python
  `datetime.now()` become explicit time parameters (`tq` for the time at which
  the SQL statement runs, `tp` for the later Python-side clock read);
* `timedelta(days=d)` is `d * secondsPerDay`;
* SQL tables are Lean lists of row structures; SQL `NULL` is `Option.none`;
* a Python function that can raise takes the outcome of its fallible storage
  call as an `Except String _` argument; a `try/except` that swallows the
  exception pattern-matches on it;
* `REAL` payment amounts are modelled as integers (only the constant `0.0`
  occurs on the paths the claims mention).
-/

namespace PNPBot

/-- Timestamps in seconds (`TIMESTAMP` columns, `datetime` values). -/
abbrev Time := Int

/-- Seconds in a day: `timedelta(days=d)` is `d * secondsPerDay`. -/
def secondsPerDay : Int := 86400

/-- One row of the `subscriptions` table (schema in
`hybrid_database.py:create_tables`); columns not touched by any modelled
operation (`notes`) are omitted. -/
structure SubRow where
  id : Nat
  user_id : Int
  plan_type : String
  status : String
  start_date : Time
  end_date : Time
  payment_amount : Option Int
  payment_method : Option String
  payment_reference : Option String
  created_at : Time
  updated_at : Time
deriving DecidableEq, Repr

/-- One row of the `audit_log` table (columns the code writes). -/
structure AuditRow where
  user_id : Int
  admin_id : Int
  action : String
  details : Option String
  created_at : Time
deriving DecidableEq, Repr

/-- The WHERE clause of `get_active_subscription`:
`user_id = ? AND status = 'active' AND end_date > CURRENT_TIMESTAMP`. -/
def activePred (uid : Int) (now : Time) (r : SubRow) : Bool :=
  r.user_id == uid && r.status == "active" && decide (now < r.end_date)

/-- `ORDER BY end_date DESC LIMIT 1` over a result set: some row with the
greatest `end_date` (the first such row; SQLite fixes no tie order, and the
theorems only use tie-free determinism). -/
def pickLatest : List SubRow → Option SubRow
  | [] => none
  | r :: rs =>
    match pickLatest rs with
    | none => some r
    | some s => if s.end_date > r.end_date then some s else some r

/-- `get_active_subscription` (hybrid_database.py lines 397-409): runs the
SELECT above at SQL time `tq`; the surrounding `try/except` turns a raised
storage error into `None`. -/
def get_active_subscription (uid : Int) (tq : Time)
    (fetch : Except String (List SubRow)) : Option SubRow :=
  match fetch with
  | .error _ => none
  | .ok tbl => pickLatest (tbl.filter (activePred uid tq))

/-- `is_user_subscribed` (hybrid_handlers.py lines 115-126): looks up the
active subscription, then re-checks `datetime.now() < end_date` at Python
time `tp`; any exception is caught and becomes `(False, None)`. -/
def is_user_subscribed (uid : Int) (tq tp : Time)
    (fetch : Except String (List SubRow)) : Bool × Option SubRow :=
  match get_active_subscription uid tq fetch with
  | some s => (decide (tp < s.end_date), some s)
  | none => (false, none)

/-- `pickLatest` returns an element of its input list. -/
theorem pickLatest_mem {l : List SubRow} {s : SubRow}
    (h : pickLatest l = some s) : s ∈ l := by
  induction l with
  | nil => simp [pickLatest] at h
  | cons r rs ih =>
    cases hrs : pickLatest rs with
    | none =>
      simp only [pickLatest, hrs, Option.some.injEq] at h
      simp [h]
    | some t =>
      simp only [pickLatest, hrs] at h
      by_cases hgt : t.end_date > r.end_date
      · rw [if_pos hgt] at h
        simp only [Option.some.injEq] at h
        subst h
        exact List.mem_cons_of_mem r (ih hrs)
      · rw [if_neg hgt] at h
        simp only [Option.some.injEq] at h
        simp [h]

/-- `pickLatest` returns `none` exactly on the empty list. -/
theorem pickLatest_eq_none_iff {l : List SubRow} :
    pickLatest l = none ↔ l = [] := by
  cases l with
  | nil => simp [pickLatest]
  | cons r rs =>
    simp only [pickLatest]
    cases pickLatest rs with
    | none => simp
    | some s =>
      by_cases hgt : s.end_date > r.end_date
      · simp [if_pos hgt]
      · simp [if_neg hgt]

/-- The row `pickLatest` returns has the greatest `end_date` in the list. -/
theorem pickLatest_maximal : ∀ {l : List SubRow} {s : SubRow},
    pickLatest l = some s → ∀ r ∈ l, r.end_date ≤ s.end_date := by
  intro l
  induction l with
  | nil => intro s h; simp [pickLatest] at h
  | cons r rs ih =>
    intro s h x hx
    cases hrs : pickLatest rs with
    | none =>
      simp only [pickLatest, hrs, Option.some.injEq] at h
      rcases List.mem_cons.mp hx with hxr | hxrs
      · rw [hxr, h]
      · exact absurd hxrs (by simp [pickLatest_eq_none_iff.mp hrs])
    | some t =>
      simp only [pickLatest, hrs] at h
      have hmax := ih hrs
      rcases List.mem_cons.mp hx with hxr | hxrs
      · by_cases hgt : t.end_date > r.end_date
        · rw [if_pos hgt] at h
          simp only [Option.some.injEq] at h
          subst hxr
          exact le_of_lt (h ▸ hgt)
        · rw [if_neg hgt] at h
          simp only [Option.some.injEq] at h
          rw [hxr, h]
      · have hle := hmax x hxrs
        by_cases hgt : t.end_date > r.end_date
        · rw [if_pos hgt] at h
          simp only [Option.some.injEq] at h
          exact h ▸ hle
        · rw [if_neg hgt] at h
          simp only [Option.some.injEq] at h
          exact le_trans hle (h ▸ le_of_not_lt hgt)

/-- If `s` is in the list and strictly dominates every other element's
`end_date`, `pickLatest` returns `s`, whatever the list order. -/
theorem pickLatest_eq_of_strict {l : List SubRow} {s : SubRow}
    (hmem : s ∈ l) (hdom : ∀ r ∈ l, r ≠ s → r.end_date < s.end_date) :
    pickLatest l = some s := by
  induction l with
  | nil => simp at hmem
  | cons r rs ih =>
    rcases List.mem_cons.mp hmem with hrs | hmem'
    · subst hrs
      cases hrs' : pickLatest rs with
      | none => simp only [pickLatest, hrs']
      | some t =>
        simp only [pickLatest, hrs']
        have htmem := pickLatest_mem hrs'
        by_cases hts : t = s
        · subst hts; simp
        · have hlt := hdom t (List.mem_cons_of_mem _ htmem) hts
          rw [if_neg (lt_asymm hlt)]
    · have hrec := ih hmem' (fun x hx hxs => hdom x (List.mem_cons_of_mem _ hx) hxs)
      simp only [pickLatest, hrec]
      by_cases hrs : r = s
      · subst hrs; simp
      · rw [if_pos (hdom r (List.mem_cons_self _ _) hrs)]

/-- A row returned by `get_active_subscription` satisfies the WHERE clause. -/
theorem get_active_subscription_some {uid : Int} {tq : Time}
    {fetch : Except String (List SubRow)} {s : SubRow}
    (h : get_active_subscription uid tq fetch = some s) :
    s.user_id = uid ∧ s.status = "active" ∧ tq < s.end_date := by
  cases fetch with
  | error e => simp [get_active_subscription] at h
  | ok tbl =>
    simp only [get_active_subscription] at h
    have hmem := List.mem_filter.mp (pickLatest_mem h)
    simpa [activePred, and_assoc] using hmem.2

/-- A sample stored subscription used to instantiate witnesses. -/
def sampleSub : SubRow :=
  { id := 1, user_id := 1, plan_type := "month", status := "active",
    start_date := 0, end_date := 10, payment_amount := some 0,
    payment_method := none, payment_reference := none,
    created_at := 0, updated_at := 0 }

/-- A second sample subscription, ending later than `sampleSub`. -/
def sampleSub2 : SubRow :=
  { id := 2, user_id := 1, plan_type := "year", status := "active",
    start_date := 0, end_date := 20, payment_amount := some 0,
    payment_method := none, payment_reference := none,
    created_at := 0, updated_at := 0 }

/-- C1: whenever `is_user_subscribed` reports a user as active, the
subscription it found satisfies both time checks — its `end_date` is later
than the SQL clock `tq` of the `status='active' AND end_date >
CURRENT_TIMESTAMP` selection and later than the Python clock `tp` of the
`datetime.now() < end_date` re-check, and its stored status is `'active'`;
hence a row whose end date has passed at the time of either check is never
reported as active, even if the sweeper has not yet flipped its status. -/
theorem c1_lapsed_row_never_reported_active (uid : Int) (tq tp : Time)
    (fetch : Except String (List SubRow))
    (h : (is_user_subscribed uid tq tp fetch).1 = true) :
    ∃ row, (is_user_subscribed uid tq tp fetch).2 = some row ∧
      row.status = "active" ∧ tq < row.end_date ∧ tp < row.end_date := by
  cases hga : get_active_subscription uid tq fetch with
  | none => simp [is_user_subscribed, hga] at h
  | some s =>
    simp only [is_user_subscribed, hga, decide_eq_true_eq] at h ⊢
    obtain ⟨_, hst, hq⟩ := get_active_subscription_some hga
    exact ⟨s, rfl, hst, hq, h⟩

/-- C1 witness: concrete instance at a stored row ending at time 10, with the
SQL check at time 0 and the Python check at time 5. -/
theorem c1_lapsed_row_never_reported_active_witness :
    ∃ row, (is_user_subscribed 1 0 5 (Except.ok [sampleSub])).2 = some row ∧
      row.status = "active" ∧ (0 : Time) < row.end_date ∧
      (5 : Time) < row.end_date :=
  c1_lapsed_row_never_reported_active 1 0 5 (Except.ok [sampleSub]) (by decide)

/-- C6: `get_active_subscription` returns `none` exactly when no row of the
table passes the `user_id = ? AND status = 'active' AND end_date > now`
filter; any returned row is a table row passing the filter with the greatest
`end_date`; and a passing row whose `end_date` strictly dominates every other
passing row is the unique result, independent of the order of the rows —
so of two persisted activations the one with the greater `end_date` wins. -/
theorem c6_latest_active_subscription_selected (uid : Int) (now : Time)
    (tbl : List SubRow) :
    (∀ r : SubRow, activePred uid now r = true ↔
      (r.user_id = uid ∧ r.status = "active" ∧ now < r.end_date)) ∧
    (get_active_subscription uid now (Except.ok tbl) = none ↔
      ∀ r ∈ tbl, activePred uid now r = false) ∧
    (∀ s, get_active_subscription uid now (Except.ok tbl) = some s →
      s ∈ tbl ∧ activePred uid now s = true ∧
      ∀ r ∈ tbl, activePred uid now r = true → r.end_date ≤ s.end_date) ∧
    (∀ s ∈ tbl, activePred uid now s = true →
      (∀ r ∈ tbl, activePred uid now r = true → r = s ∨ r.end_date < s.end_date) →
      get_active_subscription uid now (Except.ok tbl) = some s) := by
  refine ⟨fun r => by simp [activePred, and_assoc], ?_, ?_, ?_⟩
  · simp only [get_active_subscription, pickLatest_eq_none_iff,
      List.filter_eq_nil_iff]
    constructor
    · intro h r hr
      by_cases hp : activePred uid now r = true
      · exact absurd hp (h r hr)
      · simpa using hp
    · intro h r hr
      simp [h r hr]
  · intro s hs
    simp only [get_active_subscription] at hs
    have hmem := List.mem_filter.mp (pickLatest_mem hs)
    refine ⟨hmem.1, hmem.2, fun r hr hp => ?_⟩
    exact pickLatest_maximal hs r (List.mem_filter.mpr ⟨hr, hp⟩)
  · intro s hmem hp hdom
    simp only [get_active_subscription]
    apply pickLatest_eq_of_strict (List.mem_filter.mpr ⟨hmem, hp⟩)
    intro r hr hne
    have hr' := List.mem_filter.mp hr
    rcases hdom r hr'.1 hr'.2 with heq | hlt
    · exact absurd heq hne
    · exact hlt

/-- C6 witness: with two active rows for user 1 ending at 10 and 20, the
lookup returns the one ending at 20, in either insertion order. -/
theorem c6_latest_active_subscription_selected_witness :
    get_active_subscription 1 0 (Except.ok [sampleSub, sampleSub2]) =
      some sampleSub2 ∧
    get_active_subscription 1 0 (Except.ok [sampleSub2, sampleSub]) =
      some sampleSub2 :=
  ⟨(c6_latest_active_subscription_selected 1 0 [sampleSub, sampleSub2]).2.2.2
      sampleSub2 (by decide) (by decide) (by decide),
   (c6_latest_active_subscription_selected 1 0 [sampleSub2, sampleSub]).2.2.2
      sampleSub2 (by decide) (by decide) (by decide)⟩

/-- C10: a storage-layer failure during the active-subscription lookup is
swallowed: `is_user_subscribed` returns `(false, none)` instead of
propagating the exception, which is exactly what it returns when the user
has no subscription rows at all. -/
theorem c10_subscription_check_fails_closed (uid : Int) (tq tp : Time)
    (e : String) :
    is_user_subscribed uid tq tp (Except.error e) = (false, none) ∧
    is_user_subscribed uid tq tp (Except.error e) =
      is_user_subscribed uid tq tp (Except.ok []) := by
  exact ⟨rfl, rfl⟩

/-- The WHERE clause of `expire_subscriptions`:
`status = 'active' AND end_date <= CURRENT_TIMESTAMP`. -/
def dueForExpiry (now : Time) (r : SubRow) : Bool :=
  r.status == "active" && decide (r.end_date ≤ now)

/-- The SET clause of `expire_subscriptions`, applied to a matching row:
`SET status = 'expired', updated_at = CURRENT_TIMESTAMP`. -/
def expireRow (now : Time) (r : SubRow) : SubRow :=
  if dueForExpiry now r then { r with status := "expired", updated_at := now }
  else r

/-- `expire_subscriptions` (hybrid_database.py lines 429-443): one UPDATE
statement; returns the rowcount of matched rows and the updated table. -/
def expire_subscriptions (now : Time) (tbl : List SubRow) : Nat × List SubRow :=
  ((tbl.filter (dueForExpiry now)).length, tbl.map (expireRow now))

/-- A row that has been through `expireRow` is no longer due. -/
theorem dueForExpiry_expireRow (now : Time) (r : SubRow) :
    dueForExpiry now (expireRow now r) = false := by
  by_cases h : dueForExpiry now r = true
  · rw [expireRow, if_pos h]
    simp [dueForExpiry]
  · rw [expireRow, if_neg h]
    simpa using h

/-- `expireRow` is idempotent. -/
theorem expireRow_idem (now : Time) (r : SubRow) :
    expireRow now (expireRow now r) = expireRow now r := by
  conv_lhs => rw [expireRow]
  rw [if_neg (by simp [dueForExpiry_expireRow now r])]

/-- C7: `expire_subscriptions` transitions exactly the rows with
`status='active'` and `end_date ≤ now` to status `'expired'` (returning their
count), and it is idempotent: an immediately following second call matches
no rows, returns zero, and leaves the table unchanged. -/
theorem c7_expire_subscriptions_idempotent (now : Time) (tbl : List SubRow) :
    (expire_subscriptions now tbl).1 = (tbl.filter (dueForExpiry now)).length ∧
    (∀ r ∈ tbl, dueForExpiry now r = true →
      ({ r with status := "expired", updated_at := now } : SubRow) ∈
        (expire_subscriptions now tbl).2) ∧
    (∀ r ∈ tbl, dueForExpiry now r = false → r ∈ (expire_subscriptions now tbl).2) ∧
    expire_subscriptions now ((expire_subscriptions now tbl).2) =
      (0, (expire_subscriptions now tbl).2) := by
  refine ⟨rfl, ?_, ?_, ?_⟩
  · intro r hr hdue
    have : expireRow now r = { r with status := "expired", updated_at := now } := by
      simp [expireRow, hdue]
    exact this ▸ List.mem_map_of_mem (expireRow now) hr
  · intro r hr hdue
    have : expireRow now r = r := by simp [expireRow, hdue]
    exact this ▸ List.mem_map_of_mem (expireRow now) hr
  · simp only [expire_subscriptions, Prod.mk.injEq]
    constructor
    · rw [List.length_eq_zero, List.filter_eq_nil_iff]
      intro a ha
      obtain ⟨r, _, hra⟩ := List.mem_map.mp ha
      simp [← hra, dueForExpiry_expireRow]
    · rw [List.map_map]
      exact List.map_congr_left (fun r _ => expireRow_idem now r)

/-- C7 witness: one due row (ended at time 5, swept at time 10) is
transitioned on the first pass and present as `'expired'` in the result. -/
theorem c7_expire_subscriptions_idempotent_witness :
    ({ sampleSub with status := "expired", updated_at := 10 } : SubRow) ∈
      (expire_subscriptions 10 [sampleSub]).2 :=
  (c7_expire_subscriptions_idempotent 10 [sampleSub]).2.1 sampleSub
    (by decide) (by decide)

/-- `log_analytics_event` (hybrid_database.py lines 478-494): returns `True`
immediately when analytics is disabled; otherwise runs the INSERT (whose
outcome, rowcount or raised error, is the `write` argument) and catches any
exception, returning `False` — the result is always a normal return. -/
def log_analytics_event (enable_analytics : Bool)
    (write : Except String Nat) : Except String Bool :=
  if !enable_analytics then .ok true
  else
    match write with
    | .ok n => .ok (decide (0 < n))
    | .error _ => .ok false

/-- `log_audit_event` (hybrid_database.py lines 496-508): runs the INSERT
into `audit_log` and catches any exception, returning `False` — the
`except` clause swallows the error, so the result is always a normal
return, never a propagated exception. -/
def log_audit_event (write : Except String Nat) : Except String Bool :=
  match write with
  | .ok n => .ok (decide (0 < n))
  | .error _ => .ok false

/-- C4 counterexample: a failing audit write does not propagate — at the
concrete failure "db unavailable", `log_audit_event` returns the normal
value `False` (`Except.ok false`), not an error, contradicting the claim
that audit-write failures propagate to the caller. -/
theorem c4_audit_failure_counterexample :
    log_audit_event (Except.error "db unavailable") = Except.ok false := rfl

/-- C4 amended: audit-write failures are swallowed exactly like
analytics-write failures: both `log_audit_event` and `log_analytics_event`
catch the storage exception, log it, and return `False`; neither ever
propagates an exception to the caller. -/
theorem c4_audit_and_analytics_failures_swallowed :
    (∀ e : String, log_audit_event (Except.error e) = Except.ok false) ∧
    (∀ (en : Bool) (e : String), en = true →
      log_analytics_event en (Except.error e) = Except.ok false) ∧
    (∀ w : Except String Nat, ∃ b : Bool, log_audit_event w = Except.ok b) ∧
    (∀ (en : Bool) (w : Except String Nat), ∃ b : Bool,
      log_analytics_event en w = Except.ok b) := by
  refine ⟨fun e => rfl, fun en e hen => by simp [log_analytics_event, hen], ?_, ?_⟩
  · intro w
    cases w with
    | ok n => exact ⟨decide (0 < n), rfl⟩
    | error e => exact ⟨false, rfl⟩
  · intro en w
    cases en with
    | false => exact ⟨true, rfl⟩
    | true =>
      cases w with
      | ok n => exact ⟨decide (0 < n), rfl⟩
      | error e => exact ⟨false, rfl⟩

/-- C4 amended witness: the amended statement instantiated at the concrete
failing write "no such table: analytics_events" with analytics enabled. -/
theorem c4_audit_and_analytics_failures_swallowed_witness :
    log_analytics_event true (Except.error "no such table") = Except.ok false :=
  c4_audit_and_analytics_failures_swallowed.2.1 true "no such table" rfl

/-- One row of the `users` table (schema in
`hybrid_database.py:create_tables`). -/
structure UserRow where
  id : Nat
  telegram_id : Int
  username : Option String
  first_name : Option String
  last_name : Option String
  language_code : Option String
  phone_number : Option String
  is_admin : Bool
  is_banned : Bool
  created_at : Time
  updated_at : Time
  last_activity : Time
  referral_code : Option String
  referred_by : Option Int
  notes : Option String
deriving DecidableEq, Repr

/-- The `User` dataclass fields that `create_user` passes to the INSERT. -/
structure UserInput where
  telegram_id : Int
  username : Option String
  first_name : Option String
  last_name : Option String
  language_code : String
  phone_number : Option String
  is_admin : Bool
  is_banned : Bool
deriving DecidableEq, Repr

/-- Python `s or default` on a string: the default when `s` is empty. -/
def pyStrOr (s : String) (d : String) : String := if s = "" then d else s

/-- Python `s or default` on an optional string: the default when `s` is
`None` or empty. -/
def optStrOr (s : Option String) (d : String) : String :=
  match s with
  | none => d
  | some t => pyStrOr t d

/-- The row written by `create_user`'s `INSERT OR REPLACE` statement: the
supplied profile columns, `updated_at`/`last_activity` set to
`CURRENT_TIMESTAMP`, and every column absent from the column list —
`id`, `created_at`, `referral_code`, `referred_by`, `notes` — at its schema
default (a fresh rowid, `CURRENT_TIMESTAMP`, NULL, NULL, NULL). -/
def insertedUserRow (now : Time) (nextId : Nat) (u : UserInput) : UserRow :=
  { id := nextId, telegram_id := u.telegram_id, username := u.username,
    first_name := u.first_name, last_name := u.last_name,
    language_code := some (pyStrOr u.language_code "es"),
    phone_number := u.phone_number, is_admin := u.is_admin,
    is_banned := u.is_banned, created_at := now, updated_at := now,
    last_activity := now, referral_code := none, referred_by := none,
    notes := none }

/-- `create_user` (hybrid_database.py lines 301-330): `INSERT OR REPLACE INTO
users`. On a `telegram_id` conflict SQLite deletes the conflicting row and
inserts the new one, so the table becomes: the rows with other telegram ids,
plus the freshly built row. -/
def create_user_db (now : Time) (nextId : Nat) (u : UserInput)
    (users : List UserRow) : List UserRow :=
  users.filter (fun r => r.telegram_id != u.telegram_id) ++
    [insertedUserRow now nextId u]

/-- `get_user` (hybrid_database.py lines 332-347):
`SELECT * FROM users WHERE telegram_id = ?`, first row or `None`. -/
def get_user (tid : Int) (users : List UserRow) : Option UserRow :=
  users.find? (fun r => r.telegram_id == tid)

/-- The pre-existing user row of the C3 scenario: created at time 0 with a
referral code, a referrer and notes on file. -/
def sampleOldUser : UserRow :=
  { id := 1, telegram_id := 1, username := some "alice",
    first_name := some "Alice", last_name := none,
    language_code := some "en", phone_number := none,
    is_admin := false, is_banned := false, created_at := 0, updated_at := 0,
    last_activity := 0, referral_code := some "REF1", referred_by := some 9,
    notes := some "vip" }

/-- The re-contact profile of the C3 scenario (same telegram id). -/
def sampleUpsertInput : UserInput :=
  { telegram_id := 1, username := some "alice", first_name := some "Alice",
    last_name := some "Doe", language_code := "en", phone_number := none,
    is_admin := false, is_banned := false }

/-- C3 counterexample: upserting an existing user wipes the columns that are
not part of the supplied profile — after `create_user` at time 100 on a row
that carried `notes='vip'`, `referral_code='REF1'`, `referred_by=9` and
`created_at=0`, the stored row has NULL notes, NULL referral code, NULL
referrer and `created_at=100`; in particular `notes` is not left unchanged,
contradicting the claim. -/
theorem c3_upsert_counterexample :
    (get_user 1 (create_user_db 100 2 sampleUpsertInput [sampleOldUser])).map
        (fun r => (r.notes, r.referral_code, r.referred_by, r.created_at)) =
      some (none, none, none, (100 : Time)) ∧
    sampleOldUser.notes = some "vip" ∧
    sampleOldUser.referral_code = some "REF1" ∧
    sampleOldUser.referred_by = some 9 ∧
    sampleOldUser.created_at = 0 ∧
    (get_user 1 (create_user_db 100 2 sampleUpsertInput [sampleOldUser])).map
        (fun r => r.notes) ≠ some sampleOldUser.notes := by
  refine ⟨rfl, rfl, rfl, rfl, rfl, ?_⟩
  decide

/-- Rows all failing the search predicate contribute nothing to `find?`. -/
theorem find?_append_right {α : Type} {p : α → Bool} {l₁ l₂ : List α}
    (h : ∀ a ∈ l₁, p a = false) : (l₁ ++ l₂).find? p = l₂.find? p := by
  rw [List.find?_append]
  rw [List.find?_eq_none.mpr (fun x hx => by simp [h x hx])]
  rfl

/-- C3 amended: `create_user` on an existing `telegram_id` never fails and
never creates a second row — the lookup afterwards finds exactly one row for
that id, holding the supplied profile fields with `updated_at` bumped, and
rows of other users are untouched — but instead of merging, the
`INSERT OR REPLACE` replaces the whole row: `created_at` is reset to the
current timestamp and `referral_code`, `referred_by` and `notes` are reset
to NULL. -/
theorem c3_upsert_replaces_row (now : Time) (nextId : Nat) (u : UserInput)
    (users : List UserRow) :
    get_user u.telegram_id (create_user_db now nextId u users) =
      some (insertedUserRow now nextId u) ∧
    (create_user_db now nextId u users).filter
        (fun r => r.telegram_id == u.telegram_id) =
      [insertedUserRow now nextId u] ∧
    (∀ r ∈ users, r.telegram_id ≠ u.telegram_id →
      r ∈ create_user_db now nextId u users) ∧
    (insertedUserRow now nextId u).updated_at = now ∧
    (insertedUserRow now nextId u).username = u.username ∧
    (insertedUserRow now nextId u).created_at = now ∧
    (insertedUserRow now nextId u).referral_code = none ∧
    (insertedUserRow now nextId u).referred_by = none ∧
    (insertedUserRow now nextId u).notes = none := by
  refine ⟨?_, ?_, ?_, rfl, rfl, rfl, rfl, rfl, rfl⟩
  · unfold get_user create_user_db
    rw [find?_append_right]
    · simp [insertedUserRow]
    · intro a ha
      have := (List.mem_filter.mp ha).2
      simpa using this
  · unfold create_user_db
    rw [List.filter_append]
    have h1 : (users.filter (fun r => r.telegram_id != u.telegram_id)).filter
        (fun r => r.telegram_id == u.telegram_id) = [] := by
      rw [List.filter_eq_nil_iff]
      intro a ha
      have := (List.mem_filter.mp ha).2
      simpa using this
    rw [h1]
    simp [insertedUserRow]
  · intro r hr hne
    unfold create_user_db
    exact List.mem_append_left _ (List.mem_filter.mpr ⟨hr, by simpa using hne⟩)

/-- C3 amended witness: the amended statement instantiated at the concrete
existing row and re-contact profile of the counterexample scenario. -/
theorem c3_upsert_replaces_row_witness :
    get_user 1 (create_user_db 100 2 sampleUpsertInput [sampleOldUser]) =
      some (insertedUserRow 100 2 sampleUpsertInput) ∧
    sampleOldUser ∈ create_user_db 100 2
      { sampleUpsertInput with telegram_id := 5 } [sampleOldUser] :=
  ⟨(c3_upsert_replaces_row 100 2 sampleUpsertInput [sampleOldUser]).1,
   (c3_upsert_replaces_row 100 2 { sampleUpsertInput with telegram_id := 5 }
      [sampleOldUser]).2.2.1 sampleOldUser (by decide) (by decide)⟩

/-- The fields of a Telegram user object that `safe_user_update` reads;
`language_code` is the locale supplied by the client, possibly absent. -/
structure TgUser where
  id : Int
  username : Option String
  first_name : Option String
  last_name : Option String
  language_code : Option String
deriving DecidableEq, Repr

/-- `safe_user_update` (hybrid_handlers.py lines 79-105) builds the `User`
dataclass from the Telegram user: `language_code=telegram_user.language_code
or 'es'`; the remaining dataclass fields keep their defaults. -/
def userInputOfTg (tg : TgUser) : UserInput :=
  { telegram_id := tg.id, username := tg.username,
    first_name := tg.first_name, last_name := tg.last_name,
    language_code := optStrOr tg.language_code "es",
    phone_number := none, is_admin := false, is_banned := false }

/-- The language-gate condition of `start` (hybrid_handlers.py line 189):
`not user_data.get('language_code') or user_data.get('language_code') ==
'unknown'`. -/
def needsLanguageGate (lc : Option String) : Bool :=
  match lc with
  | none => true
  | some s => s == "" || s == "unknown"

/-- The `/start` handler up to its onboarding decision (hybrid_handlers.py
lines 165-194): it first upserts the user through `safe_user_update` (which
calls `create_user` and re-reads the row), then shows the language-selection
gate iff the freshly stored `language_code` is missing, empty or
`'unknown'`. Returns whether the gate is shown, with the updated table. -/
def startLanguageGate (now : Time) (nextId : Nat) (tg : TgUser)
    (users : List UserRow) : Bool × List UserRow :=
  let users' := create_user_db now nextId (userInputOfTg tg) users
  match get_user tg.id users' with
  | none => (false, users')
  | some row => (needsLanguageGate row.language_code, users')

/-- Modelled from the spec: `set_user_language` is imported from
`app.translations`, which is not among the source files; per the spec the
language-selection handler's side effect is "persist locale" (§4.3), so it
is modelled as updating the stored `language_code` of that user. -/
def set_user_language (tid : Int) (lang : String)
    (users : List UserRow) : List UserRow :=
  users.map (fun r =>
    if r.telegram_id == tid then { r with language_code := some lang } else r)

/-- C8: evaluation of the onboarding flow at the claim's inputs. First half:
a fresh user with no recorded locale whose client supplies no
`language_code` is NOT shown the language gate on `/start` — the pre-gate
upsert stores `'es'` — although the claim says such a user receives the
gate. Second half: for the one client value that does trigger the gate
(`'unknown'`), selecting `es` does not stick: the next `/start` re-upserts
the client's `'unknown'` and shows the gate again, although the claim says
the user is never re-prompted. -/
theorem c8_language_gate_evaluation :
    (startLanguageGate 0 1 ⟨7, none, none, none, none⟩ []).1 = false ∧
    (startLanguageGate 0 1 ⟨8, none, none, none, some "unknown"⟩ []).1 = true ∧
    (startLanguageGate 1 2 ⟨8, none, none, none, some "unknown"⟩
      (set_user_language 8 "es"
        (startLanguageGate 0 1 ⟨8, none, none, none, some "unknown"⟩ []).2)).1 =
      true := by
  refine ⟨rfl, rfl, rfl⟩

/-- One entry of the `PLANS` dict (hybrid_handlers.py lines 30-73). -/
structure PlanInfo where
  name : String
  price : String
  days : Nat
  description_es : String
  description_en : String
deriving DecidableEq, Repr

/-- The `PLANS` catalog (hybrid_handlers.py lines 30-73). -/
def PLANS : List (String × PlanInfo) :=
  [("week",
    { name := "WEEK PASS", price := "$14.99", days := 7,
      description_es := "Acceso total a PNP TV por 7 días 🔥",
      description_en := "Full access to PNP TV for 7 days 🔥" }),
   ("month",
    { name := "MONTH PASS", price := "$24.99", days := 30,
      description_es := "Un mes entero de placer visual sin límites 💦",
      description_en := "A full month of unlimited visual pleasure 💦" }),
   ("3month",
    { name := "3 MONTH PASS", price := "$49.99", days := 90,
      description_es := "3 meses de acceso VIP. ¡Ahorra y disfruta más! 💎",
      description_en := "3 months of VIP access. Save more and enjoy more! 💎" }),
   ("halfyear",
    { name := "1/2 YEAR PASS", price := "$79.99", days := 180,
      description_es := "6 meses de acceso full a la experiencia PNP 🔥🔥",
      description_en := "6 months of full access to the PNP experience 🔥🔥" }),
   ("year",
    { name := "1 YEAR PASS", price := "$99.99", days := 365,
      description_es := "Todo un año con los shows más calientes de PNP 🖤",
      description_en := "A full year with PNP's hottest shows 🖤" }),
   ("lifetime",
    { name := "LIFETIME PASS", price := "$149.99", days := 9999,
      description_es := "Acceso ilimitado para siempre 🖤🔥",
      description_en := "Unlimited access forever 🖤🔥" })]

/-- Value of a decimal digit character, `None` otherwise. -/
def digitVal (c : Char) : Option Nat :=
  if c.isDigit then some (c.toNat - 48) else none

/-- Accumulate decimal digits; `None` on a non-digit or an empty digit run. -/
def parseDigits : List Char → Option Nat → Option Nat
  | [], acc => acc
  | c :: cs, acc =>
    match digitVal c, acc with
    | some d, some n => parseDigits cs (some (n * 10 + d))
    | some d, none => parseDigits cs (some d)
    | none, _ => none

/-- Python `int(s)` on a decimal string: an optional sign followed by
digits; `None` models the raised `ValueError`. -/
def pyInt (s : String) : Option Int :=
  match s.data with
  | '-' :: rest => (parseDigits rest none).map (fun n => -(n : Int))
  | '+' :: rest => (parseDigits rest none).map (fun n => (n : Int))
  | l => (parseDigits l none).map (fun n => (n : Int))

/-- `create_subscription` (hybrid_database.py lines 373-395): inserts a row
with status `'active'` and the given dates, returning the new rowid; the
unspecified columns take their schema defaults. -/
def create_subscription (now : Time) (nextId : Nat) (user_id : Int)
    (plan_type : String) (start_date end_date : Time)
    (payment_amount : Option Int) (subs : List SubRow) :
    Option Nat × List SubRow :=
  (some nextId,
   subs ++ [{ id := nextId, user_id := user_id, plan_type := plan_type,
              status := "active", start_date := start_date,
              end_date := end_date, payment_amount := payment_amount,
              payment_method := none, payment_reference := none,
              created_at := now, updated_at := now }])

/-- Reply classes of `grant_access`: the usage text (fewer than two
arguments), the catch-all error reply, or the success reply carrying the
new subscription id. -/
inductive GrantOutcome
  | usage
  | err
  | granted (sid : Nat)
deriving DecidableEq, Repr

/-- The part of the Record Store `grant_access` can mutate. -/
structure GrantState where
  subs : List SubRow
  audit : List AuditRow
deriving DecidableEq, Repr

/-- `grant_access` (hybrid_handlers.py lines 590-637): parses
`<user_id> <plan_type> [days]` from `context.args`; `days` defaults to
`PLANS.get(plan_type, {}).get('days', 30)`; creates the subscription with
`start_date=now`, `end_date=now+timedelta(days=days)`, payment amount 0,
and on success appends the `grant_access` audit event. A failed `int()`
parse is caught by the outer `except` (error reply, no insert). -/
def grant_access (now : Time) (adminId : Int) (nextId : Nat)
    (args : List String) (st : GrantState) : GrantOutcome × GrantState :=
  if args.length < 2 then (.usage, st)
  else
    match (args.get? 0).bind pyInt with
    | none => (.err, st)
    | some uid =>
      let plan := (args.get? 1).getD ""
      let daysOpt : Option Int :=
        match args.get? 2 with
        | some ds => pyInt ds
        | none =>
          some (((PLANS.find? (fun p => p.1 == plan)).map
            (fun p => (p.2.days : Int))).getD 30)
      match daysOpt with
      | none => (.err, st)
      | some days =>
        let start_date := now
        let end_date := start_date + days * secondsPerDay
        match create_subscription now nextId uid plan start_date end_date
            (some 0) st.subs with
        | (some sid, subs') =>
          (.granted sid,
           { subs := subs',
             audit := st.audit ++
               [{ user_id := uid, admin_id := adminId,
                  action := "grant_access",
                  details := some ("Plan: " ++ plan ++ ", Days: " ++
                    toString days),
                  created_at := now }] })
        | (none, subs') => (.err, { st with subs := subs' })

/-- The admin configuration read by `register_handlers_safely`
(hybrid_main.py lines 149-175): `ADMIN_USER_ID`, possibly unset. -/
structure BotConfig where
  admin_user_id : Option Int
deriving DecidableEq, Repr

/-- Whether the `/grant` command reaches `grant_access`: the handler is
registered only when an admin id is configured, and then behind
`Filters.user(user_id=config.admin_user_id)` (hybrid_main.py lines
166-175). -/
def grant_dispatched (cfg : BotConfig) (actor : Int) : Bool :=
  match cfg.admin_user_id with
  | none => false
  | some a => actor == a

/-- Outcome of routing a `/grant` command. -/
inductive RouteOutcome
  | notDispatched
  | handled (o : GrantOutcome)
deriving DecidableEq, Repr

/-- The dispatcher's treatment of an incoming `/grant` from `actor`: the
handler runs only when the registration filter admits the actor; otherwise
nothing is invoked and the store is untouched. -/
def route_grant (cfg : BotConfig) (now : Time) (nextId : Nat) (actor : Int)
    (args : List String) (st : GrantState) : RouteOutcome × GrantState :=
  if grant_dispatched cfg actor then
    let r := grant_access now actor nextId args st
    (.handled r.1, r.2)
  else (.notDispatched, st)

/-- C9: a `/grant` from any actor other than the configured administrator
(including the case of no configured administrator) is stopped at the router
boundary: `grant_access` is never invoked, and neither the subscriptions
table nor the audit log changes. -/
theorem c9_non_admin_grant_rejected_at_router (cfg : BotConfig) (now : Time)
    (nextId : Nat) (actor : Int) (args : List String) (st : GrantState)
    (h : ∀ a, cfg.admin_user_id = some a → actor ≠ a) :
    route_grant cfg now nextId actor args st = (.notDispatched, st) ∧
    (route_grant cfg now nextId actor args st).2.subs = st.subs ∧
    (route_grant cfg now nextId actor args st).2.audit = st.audit := by
  have hd : grant_dispatched cfg actor = false := by
    cases hc : cfg.admin_user_id with
    | none => simp [grant_dispatched, hc]
    | some a => simpa [grant_dispatched, hc] using h a hc
  refine ⟨?_, ?_, ?_⟩ <;> simp [route_grant, hd]

/-- C9 witness: with administrator 1 configured, actor 2's `/grant` is not
dispatched and the empty store stays empty. -/
theorem c9_non_admin_grant_rejected_at_router_witness :
    route_grant ⟨some 1⟩ 0 1 2 ["5", "month"] ⟨[], []⟩ =
      (.notDispatched, ⟨[], []⟩) :=
  (c9_non_admin_grant_rejected_at_router ⟨some 1⟩ 0 1 2 ["5", "month"]
    ⟨[], []⟩ (by intro a ha; injection ha with h2; subst h2; decide)).1

/-- C2 counterexample: at the concrete call `/grant 123 quarter` (plan id
`"quarter"`, not in the enumerated set) on an empty store, `grant_access`
does not return an invalid-plan error: it reports success and inserts a
subscription row for plan `"quarter"` with the 30-day default duration, so
the subscriptions table is not unchanged. -/
theorem c2_unknown_plan_counterexample :
    (grant_access 0 999 1 ["123", "quarter"] ⟨[], []⟩).1 = .granted 1 ∧
    (grant_access 0 999 1 ["123", "quarter"] ⟨[], []⟩).2.subs =
      [{ id := 1, user_id := 123, plan_type := "quarter", status := "active",
         start_date := 0, end_date := 30 * secondsPerDay,
         payment_amount := some 0, payment_method := none,
         payment_reference := none, created_at := 0, updated_at := 0 }] ∧
    (grant_access 0 999 1 ["123", "quarter"] ⟨[], []⟩).2.subs ≠ [] := by
  refine ⟨rfl, rfl, by decide⟩

/-- C2 amended: `grant_access` performs no plan validation. For any plan id
outside the enumerated set, called without an explicit days argument, it
accepts the plan, inserts an active subscription row for it with the
default 30-day duration, appends the audit entry, and reports success —
there is no invalid-plan error path. -/
theorem c2_unknown_plan_accepted_with_default_days (now : Time)
    (adminId : Int) (nextId : Nat) (uidStr plan : String) (uid : Int)
    (st : GrantState) (hu : pyInt uidStr = some uid)
    (hp : PLANS.find? (fun p => p.1 == plan) = none) :
    grant_access now adminId nextId [uidStr, plan] st =
      (.granted nextId,
       { subs := st.subs ++
           [{ id := nextId, user_id := uid, plan_type := plan,
              status := "active", start_date := now,
              end_date := now + 30 * secondsPerDay, payment_amount := some 0,
              payment_method := none, payment_reference := none,
              created_at := now, updated_at := now }],
         audit := st.audit ++
           [{ user_id := uid, admin_id := adminId, action := "grant_access",
              details := some ("Plan: " ++ plan ++ ", Days: " ++
                toString (30 : Int)),
              created_at := now }] }) := by
  simp [grant_access, hu, hp, create_subscription]

/-- C2 amended witness: the amended statement instantiated at
`/grant 123 quarter` on an empty store. -/
theorem c2_unknown_plan_accepted_with_default_days_witness :
    (grant_access 5 999 7 ["123", "quarter"] ⟨[], []⟩).1 = .granted 7 := by
  rw [c2_unknown_plan_accepted_with_default_days 5 999 7 "123" "quarter" 123
    ⟨[], []⟩ rfl rfl]

/-- The subscription row `grant_access` inserts for `/grant uid plan d`:
status `'active'`, `start_date = now`, `end_date = now + d` days. -/
def grantedRow (now : Time) (nextId : Nat) (uid : Int) (plan : String)
    (d : Int) : SubRow :=
  { id := nextId, user_id := uid, plan_type := plan, status := "active",
    start_date := now, end_date := now + d * secondsPerDay,
    payment_amount := some 0, payment_method := none,
    payment_reference := none, created_at := now, updated_at := now }

/-- C5 counterexample: for `plan = "month"` (in the enumerated set) and
`days = 0`, activate-then-check fails: `/grant 42 month 0` succeeds and
inserts its row, but the immediately following `is_user_subscribed` returns
`(false, none)` — not `(true, subscription)` as the claim states for all
`(userId, plan, days)` — because `end_date = start_date` is not in the
future. -/
theorem c5_zero_days_counterexample :
    (grant_access 0 999 1 ["42", "month", "0"] ⟨[], []⟩).1 = .granted 1 ∧
    is_user_subscribed 42 0 0
        (Except.ok (grant_access 0 999 1 ["42", "month", "0"] ⟨[], []⟩).2.subs) =
      (false, none) := by
  refine ⟨rfl, rfl⟩

/-- C5 amended: for every `(userId, plan, days)` with `plan` in the
enumerated set and `days ≥ 1`, `/grant userId plan days` inserts exactly one
new row — status `'active'`, `start_date = now`, `end_date = start_date +
days` days, exactly — and an immediately following `is_user_subscribed`
returns `(true, s)` where `s` is that new row, provided every prior
subscription row of this user ends before the new `end_date` (otherwise the
lookup's latest-`end_date` rule returns the prior row instead). -/
theorem c5_activate_then_check_active (now : Time) (adminId : Int)
    (nextId : Nat) (uidStr plan dStr : String) (uid d : Int)
    (st : GrantState) (hu : pyInt uidStr = some uid)
    (_hplan : (PLANS.find? (fun p => p.1 == plan)).isSome = true)
    (hd : pyInt dStr = some d) (hpos : 0 < d)
    (hprior : ∀ r ∈ st.subs, r.user_id = uid →
      r.end_date < now + d * secondsPerDay) :
    (grant_access now adminId nextId [uidStr, plan, dStr] st).1 =
      .granted nextId ∧
    (grant_access now adminId nextId [uidStr, plan, dStr] st).2.subs =
      st.subs ++ [grantedRow now nextId uid plan d] ∧
    is_user_subscribed uid now now
        (Except.ok
          (grant_access now adminId nextId [uidStr, plan, dStr] st).2.subs) =
      (true, some (grantedRow now nextId uid plan d)) ∧
    (grantedRow now nextId uid plan d).status = "active" ∧
    (grantedRow now nextId uid plan d).end_date =
      (grantedRow now nextId uid plan d).start_date + d * secondsPerDay := by
  have hdays : (0 : Int) < d * secondsPerDay :=
    mul_pos hpos (by norm_num [secondsPerDay])
  have hsubs : (grant_access now adminId nextId [uidStr, plan, dStr] st).2.subs =
      st.subs ++ [grantedRow now nextId uid plan d] := by
    simp [grant_access, hu, hd, create_subscription, grantedRow]
  have hout : (grant_access now adminId nextId [uidStr, plan, dStr] st).1 =
      .granted nextId := by
    simp [grant_access, hu, hd, create_subscription]
  have hnewEnd : now < (grantedRow now nextId uid plan d).end_date := by
    simp only [grantedRow]
    linarith
  have hfilterNew : activePred uid now (grantedRow now nextId uid plan d) =
      true := by
    simp [activePred, grantedRow]
    linarith
  have hga : get_active_subscription uid now
      (Except.ok (st.subs ++ [grantedRow now nextId uid plan d])) =
      some (grantedRow now nextId uid plan d) := by
    simp only [get_active_subscription]
    apply pickLatest_eq_of_strict
    · exact List.mem_filter.mpr ⟨List.mem_append_right _ (by simp), hfilterNew⟩
    · intro r hr hne
      have hr' := List.mem_filter.mp hr
      rcases List.mem_append.mp hr'.1 with hin | hin
      · have h2 : r.user_id = uid ∧ r.status = "active" ∧ now < r.end_date := by
          simpa [activePred, and_assoc] using hr'.2
        have := hprior r hin h2.1
        simpa [grantedRow] using this
      · simp at hin
        exact absurd hin hne
  refine ⟨hout, hsubs, ?_, rfl, rfl⟩
  rw [hsubs]
  simp only [is_user_subscribed, hga]
  simp [hnewEnd]

/-- C5 amended witness: `/grant 42 month 30` on an empty store, checked at
the grant time. -/
theorem c5_activate_then_check_active_witness :
    is_user_subscribed 42 0 0
        (Except.ok (grant_access 0 999 1 ["42", "month", "30"] ⟨[], []⟩).2.subs) =
      (true, some (grantedRow 0 1 42 "month" 30)) :=
  (c5_activate_then_check_active 0 999 1 "42" "month" "30" 42 30 ⟨[], []⟩
    rfl rfl rfl (by norm_num) (by simp)).2.2.1

end PNPBot
